import Mathlib

/-
Shallow embedding of `src/restaurants.go`, the Yelp restaurant plugin for the
abot conversational framework.

Modelling conventions:
* Go strings are Lean `String`s; `strings.Fields`, `strings.TrimRight` and
  `strings.ToLower` are re-implemented structurally on the character list
  (the keywords involved are ASCII, so ASCII lower-casing is faithful).
* The conversation state map `m.State` is the record `ConvState`.  Between
  turns the framework round-trips the state through JSON, which is why the
  Go code reads businesses back as maps keyed by the JSON tags
  (`display_phone`, `mobile_url`, `Rating`, ...); the record `Business`
  carries those fields directly.  The `offset` entry, a Go `float64` that
  only ever holds non-negative integers (`float64(0)`, `float64(offI+1)`),
  is a `Nat`.  `m.State["businesses"]` may be absent/nil, hence
  `Option (List Business)`.
* The float64 `Rating` field is modelled by `Rat`; `formatRating` stands in
  for `fmt.Sprintf("%.1f", ...)` (one decimal, rounded).  No claim depends
  on the numeric formatting.
* Run-time panics (out-of-range indexing, failed type assertion on nil,
  nil-pointer dereference) are modelled by `Option.none` on the function's
  result.
* The external collaborators are parameters: the Yelp HTTP round trip is a
  function `Provider : SearchReq → SearchOutcome` (`.failure` covers a
  transport error, a non-200 status and a decode failure, which
  `client.get` merges into one returned error), and the location resolver
  outcomes of `knowledge.GetLocation` are `LocOutcome` values, one per call.
* Every function that can reach `c.get` additionally returns the list of
  `SearchReq` values it issued, so that "Search was (not) invoked" and the
  requested `limit` are observable.
-/

namespace Restaurant

/-- JSON shape `yelpResp.Businesses[i].Location`: city and the ordered
display-address lines. -/
structure YelpLocation where
  city : String
  displayAddress : List String
deriving DecidableEq

/-- One business record of the Yelp response (`yelpResp.Businesses[i]`). -/
structure Business where
  name : String
  imageURL : String
  mobileURL : String
  displayPhone : String
  distance : Int
  rating : Rat
  location : YelpLocation
deriving DecidableEq

/-- The conversation state map set up by `Run` (lines 90-95 of the source). -/
structure ConvState where
  query : String
  location : String
  offset : Nat
  businesses : Option (List Business)
deriving DecidableEq

/-- The slice of `dt.Msg` the plugin uses: its state map and its `Sentence`
field (the user's sentence, overwritten by `Run`'s first clarifying-question
branch). -/
structure Msg where
  state : ConvState
  sentence : String
deriving DecidableEq

/-- The parameters `searchYelp` sends to the provider (`url.Values` with
`term`, `location` and `limit`, lines 258-262). -/
structure SearchReq where
  term : String
  location : String
  limit : Nat
deriving DecidableEq

/-- Outcome of one provider round trip as seen through `client.get`:
`.failure` is a transport error, a non-200 status or a decode failure
(all returned as a Go error by `get`), `.success` carries the decoded
business list. -/
inductive SearchOutcome where
  | failure
  | success (businesses : List Business)
deriving DecidableEq

/-- The external search provider, one deterministic answer per request. -/
abbrev Provider := SearchReq → SearchOutcome

/-- The resolved location returned by `knowledge.GetLocation`: the plugin
only reads its `Name` field. -/
structure Loc where
  name : String
deriving DecidableEq

/-- Outcome of one `knowledge.GetLocation` call: `(loc, question, err)` in
the source; `.failure` is a non-nil error, `.ok loc question` the non-error
case (a nil `loc` pointer is `none`). -/
inductive LocOutcome where
  | failure
  | ok (loc : Option Loc) (question : String)
deriving DecidableEq

/-- Go `strings.TrimRight(w, ").,;?!:")` cutset (line 161). -/
def cutset : List Char := [')', '.', ',', ';', '?', '!', ':']

/-- Go `strings.TrimRight(w, ").,;?!:")`: drop trailing characters belonging
to the cutset. -/
def trimRightPunct (w : String) : String :=
  String.mk ((w.data.reverse.dropWhile (fun c => cutset.contains c)).reverse)

/-- Go `strings.ToLower` restricted to ASCII (all classifier keywords are
ASCII, so this is faithful on the compared values). -/
def lowerStr (s : String) : String :=
  String.mk (s.data.map Char.toLower)

/-- Helper for `fields`: accumulate the current word (reversed) while
splitting around runs of whitespace. -/
def fieldsAux : List Char → List Char → List String
  | [], acc => if acc = [] then [] else [String.mk acc.reverse]
  | c :: cs, acc =>
    if c.isWhitespace then
      if acc = [] then fieldsAux cs []
      else String.mk acc.reverse :: fieldsAux cs []
    else fieldsAux cs (c :: acc)

/-- Go `strings.Fields`: split around runs of whitespace, no empty words. -/
def fields (s : String) : List String :=
  fieldsAux s.data []

/-- Abstraction of Go `fmt.Sprintf("%.1f", r)` for the (non-negative) Yelp
rating, with the float64 modelled as a rational: one decimal digit after
rounding.  No claim depends on this rendering. -/
def formatRating (r : Rat) : String :=
  let n : Nat := (round (10 * r)).toNat
  toString (n / 10) ++ "." ++ toString (n % 10)

/-- Modelled from the spec: the host `language` package (not part of this
repository) returns a fixed positive acknowledgment phrase
(`language.Positive()`). -/
def languagePositive : String := "Great!"

/-- Modelled from the spec: the host `language` package (not part of this
repository) returns a fixed "you're welcome" phrase (`language.Welcome()`). -/
def languageWelcome : String := "Anytime!"

/-- `getRating` (lines 210-214): read the business at `offset` and format its
rating; a nil or out-of-range list access panics (`none`). -/
def getRating (m : Msg) (offset : Nat) : Option String :=
  match m.state.businesses with
  | none => none
  | some businesses =>
    match businesses[offset]? with
    | none => none
    | some firstBusiness => some (formatRating firstBusiness.rating)

/-- `getURL` (lines 216-220): the `mobile_url` of the business at `offset`. -/
def getURL (m : Msg) (offset : Nat) : Option String :=
  match m.state.businesses with
  | none => none
  | some businesses =>
    match businesses[offset]? with
    | none => none
    | some firstBusiness => some firstBusiness.mobileURL

/-- `getPhone` (lines 222-226): the `display_phone` of the business at
`offset`. -/
def getPhone (m : Msg) (offset : Nat) : Option String :=
  match m.state.businesses with
  | none => none
  | some businesses =>
    match businesses[offset]? with
    | none => none
    | some firstBusiness => some firstBusiness.displayPhone

/-- `getAddress` (lines 228-239): combine the first two display-address lines
as "{line1} in {line2}" when a second exists, else return the first line;
with no lines the `dispAddr[0]` access is out of range (`none`). -/
def getAddress (m : Msg) (offset : Nat) : Option String :=
  match m.state.businesses with
  | none => none
  | some businesses =>
    match businesses[offset]? with
    | none => none
    | some firstBusiness =>
      match firstBusiness.location.displayAddress with
      | str1 :: str2 :: _ => some (str1 ++ " in " ++ str2)
      | [str1] => some str1
      | [] => none

/-- The `url.Values` form of lines 258-262: term, location and
`limit = offset + 1`. -/
def yelpReq (st : ConvState) : SearchReq :=
  { term := st.query, location := st.location, limit := st.offset + 1 }

/-- `searchYelp` (lines 253-297).  It always returns a nil error (every
return statement is `return nil`), so no error channel is modelled; the
issued request is reported in the third component. -/
def searchYelp (provider : Provider) (m : Msg) (resp : String) :
    Msg × String × List SearchReq :=
  let req : SearchReq := yelpReq m.state
  match provider req with
  | .failure => (m, resp, [req])
  | .success data =>
    let m' := { m with state := { m.state with businesses := some data } }
    if data.length = 0 then
      (m', "I couldn't find any places like that nearby.", [req])
    else if h : data.length ≤ m.state.offset then
      (m', "That's all I could find.", [req])
    else
      let b := data.get ⟨m.state.offset, Nat.lt_of_not_le h⟩
      let addr :=
        match b.location.displayAddress with
        | [] => ""
        | a :: _ => a
      if m.state.offset = 0 then
        (m', "Ok. How does this place look? " ++ b.name ++ " at " ++ addr,
         [req])
      else
        (m', "What about " ++ b.name ++ " instead?", [req])

/-- The condition of line 149-150:
`m.State["businesses"] != nil && len(m.State["businesses"].([]interface{})) == 0`. -/
def noBusinesses (st : ConvState) : Bool :=
  match st.businesses with
  | some bs => bs.length == 0
  | none => false

/-- One arm of the keyword `switch` of `FollowUp` (lines 160-202), applied to
one word `w` of the prior response; `offI` is the offset read once before the
loop (line 158).  Accessor panics propagate as `none`; the third component
lists the search requests this word caused. -/
def followUpWord (provider : Provider) (offI : Nat) (m : Msg) (resp : String)
    (w : String) : Option (Msg × String × List SearchReq) :=
  let lw := lowerStr (trimRightPunct w)
  if lw ∈ ["rated", "rating", "review", "recommend", "recommended"] then
    (getRating m offI).map
      (fun s => (m, "It has a " ++ s ++ " star review on Yelp", []))
  else if lw ∈ ["number", "phone"] then
    (getPhone m offI).map (fun s => (m, s, []))
  else if lw = "call" then
    (getPhone m offI).map (fun s => (m, "You can reach them here: " ++ s, []))
  else if lw ∈ ["information", "info"] then
    (getURL m offI).map (fun s => (m, "Here's some more info: " ++ s, []))
  else if lw ∈ ["where", "location", "address", "direction", "directions",
      "addr"] then
    (getAddress m offI).map (fun s => (m, "It's at " ++ s, []))
  else if lw ∈ ["pictures", "pic", "pics"] then
    (getURL m offI).map (fun s => (m, "I found some pics here: " ++ s, []))
  else if lw ∈ ["menu", "have"] then
    (getURL m offI).map (fun s => (m, "Yelp might have a menu... " ++ s, []))
  else if lw ∈ ["not", "else", "no", "anything", "something"] then
    some (searchYelp provider
      { m with state := { m.state with offset := offI + 1 } } resp)
  else if lw ∈ ["good", "great", "yes", "perfect"] then
    some (m, languagePositive, [])
  else if lw ∈ ["thanks", "thank"] then
    some (m, languageWelcome, [])
  else
    some (m, resp, [])

/-- The word loop of `FollowUp` (lines 160-206): after each word, return as
soon as the response is non-empty (`if len(*resp) > 0`, line 203). -/
def followUpLoop (provider : Provider) (offI : Nat) :
    List String → Msg → String → List SearchReq →
    Option (Msg × String × List SearchReq)
  | [], m, resp, calls => some (m, resp, calls)
  | w :: ws, m, resp, calls =>
    match followUpWord provider offI m resp w with
    | none => none
    | some (m', resp', calls') =>
      if 0 < resp'.length then some (m', resp', calls ++ calls')
      else followUpLoop provider offI ws m' resp' (calls ++ calls')

/-- `FollowUp` (lines 137-208).  `resp` enters holding the prior response
text (its words are what the classifier scans); `m.sentence` is the new user
utterance, consulted only by the pending-location branch. -/
def FollowUp (provider : Provider) (m : Msg) (resp : String) :
    Option (Msg × String × List SearchReq) :=
  if m.state.location = "" then
    some (searchYelp provider
      { m with state := { m.state with location := m.sentence } } resp)
  else if noBusinesses m.state then
    some (m, "I couldn't find anything like that", [])
  else
    followUpLoop provider m.state.offset (fields resp) m resp []

/-- `query` built from the structured input's object tokens
(lines 97-100): each token is appended followed by a single space. -/
def buildQuery (objs : List String) : String :=
  objs.foldl (fun query o => query ++ o ++ " ") ""

/-- The state map installed at the top of `Run` (lines 90-95), with `query`
already filled in (line 101). -/
def freshState (objs : List String) : ConvState :=
  { query := buildQuery objs, location := "", offset := 0,
    businesses := some [] }

/-- Lines 107-109 / 122-124: store the partially-resolved location name when
the resolver returned one (`loc != nil && len(loc.Name) > 0`). -/
def storeLocName (st : ConvState) (loc : Option Loc) : ConvState :=
  match loc with
  | some l => if 0 < l.name.length then { st with location := l.name } else st
  | none => st

/-- `Run` (lines 89-134).  `g1` and `g2` are the outcomes of the first and
second `knowledge.GetLocation` calls, `objs` the structured input's object
tokens, `resp` the incoming value of the response pointer.  Result: the
updated message, the response, the issued search requests, and `true` when a
non-nil error was returned; `none` is the nil-dereference panic of line 113
(resolver contract broken: empty question with nil location). -/
def Run (g1 g2 : LocOutcome) (provider : Provider) (objs : List String)
    (m : Msg) (resp : String) :
    Option (Msg × String × List SearchReq × Bool) :=
  let m1 : Msg := { m with state := freshState objs }
  match g1 with
  | .failure => some (m1, resp, [], true)
  | .ok loc question =>
    if 0 < question.length then
      some ({ m1 with
              state := storeLocName m1.state loc
              sentence := question }, resp, [], false)
    else
      match loc with
      | none => none
      | some l =>
        let m2 : Msg := { m1 with state := { m1.state with location := l.name } }
        if m2.state.location.length = 0 then
          match g2 with
          | .failure => some (m2, resp, [], true)
          | .ok loc2 question2 =>
            if 0 < question2.length then
              some ({ m2 with state := storeLocName m2.state loc2 },
                    question2, [], false)
            else
              match loc2 with
              | none => none
              | some l2 =>
                let m3 : Msg :=
                  { m2 with state := { m2.state with location := l2.name } }
                let r := searchYelp provider m3 resp
                some (r.1, r.2.1, r.2.2, false)
        else
          let r := searchYelp provider m2 resp
          some (r.1, r.2.1, r.2.2, false)

/-- Fixture: a fully-populated business. -/
def bizA : Business :=
  { name := "Torchys", imageURL := "http://img.yelp.com/torchys",
    mobileURL := "http://m.yelp.com/torchys",
    displayPhone := "(512) 555-0100", distance := 100, rating := 4,
    location := { city := "Austin",
                  displayAddress := ["101 Main St", "Austin"] } }

/-- Fixture: a business with no display-address lines and no phone. -/
def bizBare : Business :=
  { name := "Foodcart", imageURL := "", mobileURL := "",
    displayPhone := "", distance := 5, rating := 3,
    location := { city := "Austin", displayAddress := [] } }

/-- Fixture: a provider whose round trip always fails. -/
def pFail : Provider := fun _ => .failure

/-- Fixture: a provider that always returns the empty business list. -/
def pEmpty : Provider := fun _ => .success []

/-- Fixture: a provider that always returns the single business `bizA`. -/
def pOne : Provider := fun _ => .success [bizA]

/-- Fixture: a message whose state holds an empty (but present) business
list at offset 0, with a known location. -/
def mEmpty : Msg :=
  { state := { query := "tacos ", location := "Austin", offset := 0,
               businesses := some [] },
    sentence := "hi" }

/-- Fixture: a message whose state holds the single business `bizA` at
offset 0, with a known location. -/
def mOne : Msg :=
  { state := { query := "tacos ", location := "Austin", offset := 0,
               businesses := some [bizA] },
    sentence := "hi" }

/-- Fixture: like `mOne` but with the stored offset already at 1. -/
def mOneOff1 : Msg :=
  { state := { query := "tacos ", location := "Austin", offset := 1,
               businesses := some [bizA] },
    sentence := "hi" }

/-- Fixture: a message whose state holds the single business `bizBare`
(no phone, no address lines) at offset 0, with a known location. -/
def mBare : Msg :=
  { state := { query := "tacos ", location := "Austin", offset := 0,
               businesses := some [bizBare] },
    sentence := "hi" }

/-- Fixture: a provider that always returns two copies of `bizA`. -/
def pTwo : Provider := fun _ => .success [bizA, bizA]

/-- Fixture: a provider that always returns the single business `bizBare`. -/
def pBare : Provider := fun _ => .success [bizBare]

/-- The spec's reading of the query construction: the object tokens
concatenated in original order, each followed by a single space.  Stated
from the spec's words, for comparison with `buildQuery` from the source. -/
def joinSpaced : List String → String
  | [] => ""
  | o :: os => o ++ " " ++ joinSpaced os

/-- A non-empty string has positive length. -/
theorem str_length_pos (s : String) (h : s ≠ "") : 0 < s.length := by
  cases s with
  | mk data =>
    cases data with
    | nil => exact absurd rfl h
    | cons c cs => simp [String.length]

/-- `searchYelp` issues exactly one provider request, with the parameters
`yelpReq` of the state it runs in. -/
theorem searchYelp_calls (provider : Provider) (m : Msg) (resp : String) :
    (searchYelp provider m resp).2.2 = [yelpReq m.state] := by
  cases h : provider (yelpReq m.state) with
  | failure => simp only [searchYelp, h]
  | success data =>
    simp only [searchYelp, h]
    split
    · rfl
    · split
      · rfl
      · split <;> rfl

/-- On a provider failure `searchYelp` changes nothing and leaves the
response alone. -/
theorem searchYelp_failure (provider : Provider) (m : Msg) (resp : String)
    (h : provider (yelpReq m.state) = .failure) :
    searchYelp provider m resp = (m, resp, [yelpReq m.state]) := by
  simp only [searchYelp, h]

/-- On a success with a business at the stored offset, `searchYelp` stores
the result and renders the offset-dependent response. -/
theorem searchYelp_success_hit (provider : Provider) (m : Msg) (resp : String)
    (bs : List Business) (b : Business)
    (h1 : provider (yelpReq m.state) = .success bs)
    (h2 : bs[m.state.offset]? = some b) :
    searchYelp provider m resp =
      ({ m with state := { m.state with businesses := some bs } },
       (if m.state.offset = 0 then
          "Ok. How does this place look? " ++ b.name ++ " at " ++
            (match b.location.displayAddress with
             | [] => ""
             | a :: _ => a)
        else "What about " ++ b.name ++ " instead?"),
       [yelpReq m.state]) := by
  obtain ⟨hlt, hb⟩ := List.getElem?_eq_some.mp h2
  simp only [searchYelp, h1]
  rw [if_neg (by omega : ¬ bs.length = 0), dif_neg (by omega)]
  have : bs.get ⟨m.state.offset, Nat.lt_of_not_le (by omega)⟩ = b := by
    rw [List.get_eq_getElem, hb]
  rw [this]
  split <;> rfl

/-- On a success whose non-empty result is too short for the stored offset,
`searchYelp` stores it and answers the fixed exhausted message. -/
theorem searchYelp_success_short (provider : Provider) (m : Msg)
    (resp : String) (bs : List Business)
    (h1 : provider (yelpReq m.state) = .success bs) (h2 : bs ≠ [])
    (h3 : bs.length ≤ m.state.offset) :
    searchYelp provider m resp =
      ({ m with state := { m.state with businesses := some bs } },
       "That's all I could find.", [yelpReq m.state]) := by
  simp only [searchYelp, h1]
  rw [if_neg (fun hz => h2 (List.length_eq_zero.mp hz)), dif_pos h3]

/-- On a success with no results, `searchYelp` stores the empty list and
answers the fixed no-results message. -/
theorem searchYelp_success_none (provider : Provider) (m : Msg)
    (resp : String) (h1 : provider (yelpReq m.state) = .success []) :
    searchYelp provider m resp =
      ({ m with state := { m.state with businesses := some [] } },
       "I couldn't find any places like that nearby.", [yelpReq m.state]) := by
  simp only [searchYelp, h1]
  rfl

/-- `searchYelp` only ever touches the `businesses` entry of the state (and
the response): message, query, location, offset and sentence survive. -/
theorem searchYelp_fst (provider : Provider) (m : Msg) (resp : String) :
    ∃ obs, (searchYelp provider m resp).1 =
      { m with state := { m.state with businesses := obs } } := by
  cases h : provider (yelpReq m.state) with
  | failure => exact ⟨m.state.businesses, by simp only [searchYelp, h]⟩
  | success data =>
    refine ⟨some data, ?_⟩
    simp only [searchYelp, h]
    split
    · rfl
    · split
      · rfl
      · split <;> rfl

/-- `searchYelp` does not change the stored query. -/
theorem searchYelp_query (provider : Provider) (m : Msg) (resp : String) :
    (searchYelp provider m resp).1.state.query = m.state.query := by
  obtain ⟨obs, h⟩ := searchYelp_fst provider m resp
  rw [h]

/-- `searchYelp` does not change the stored offset. -/
theorem searchYelp_offset (provider : Provider) (m : Msg) (resp : String) :
    (searchYelp provider m resp).1.state.offset = m.state.offset := by
  obtain ⟨obs, h⟩ := searchYelp_fst provider m resp
  rw [h]

/-- `storeLocName` does not change the stored query. -/
theorem storeLocName_query (st : ConvState) (loc : Option Loc) :
    (storeLocName st loc).query = st.query := by
  cases loc with
  | none => rfl
  | some l =>
    show (if 0 < l.name.length then
            { st with location := l.name } else st).query = st.query
    split <;> rfl

/-- The folded query construction, over any accumulator. -/
theorem buildQuery_concat (objs : List String) (init : String) :
    objs.foldl (fun query o => query ++ o ++ " ") init =
      init ++ joinSpaced objs := by
  induction objs generalizing init with
  | nil => rw [List.foldl_nil, joinSpaced, String.append_empty]
  | cons a as ih =>
    rw [List.foldl_cons, ih, joinSpaced]
    simp [String.append_assoc]

/-- `buildQuery` from the source agrees with the spec's space-joined
reconstruction. -/
theorem buildQuery_eq_joinSpaced (objs : List String) :
    buildQuery objs = joinSpaced objs := by
  have h := buildQuery_concat objs ""
  rwa [String.empty_append] at h

/-- The classifier step on a word normalizing to "phone" returns the raw
display phone as the response when the phone accessor succeeds. -/
theorem followUpWord_phone (provider : Provider) (offI : Nat) (m : Msg)
    (resp : String) (w : String) (s : String)
    (hlw : lowerStr (trimRightPunct w) = "phone")
    (hget : getPhone m offI = some s) :
    followUpWord provider offI m resp w = some (m, s, []) := by
  simp [followUpWord, hlw, hget]

/-- The classifier step on a pagination trigger word sets the offset to
`offI + 1` (the offset read at the start of the `FollowUp` call, plus one)
and re-invokes the search. -/
theorem followUpWord_trigger (provider : Provider) (offI : Nat) (m : Msg)
    (resp : String) (w : String)
    (hlw : lowerStr (trimRightPunct w) ∈
      ["not", "else", "no", "anything", "something"]) :
    followUpWord provider offI m resp w =
      some (searchYelp provider
        { m with state := { m.state with offset := offI + 1 } } resp) := by
  simp only [List.mem_cons, List.not_mem_nil, or_false] at hlw
  rcases hlw with h | h | h | h | h
  · simp [followUpWord, h]
  · simp [followUpWord, h]
  · simp [followUpWord, h]
  · simp [followUpWord, h]
  · simp [followUpWord, h]

/-- One classifier step leaves the stored offset alone or sets it to
`offI + 1`. -/
theorem followUpWord_offset (provider : Provider) (offI : Nat) (m : Msg)
    (resp w : String) (r : Msg × String × List SearchReq)
    (h : followUpWord provider offI m resp w = some r) :
    r.1.state.offset = m.state.offset ∨ r.1.state.offset = offI + 1 := by
  unfold followUpWord at h
  dsimp only at h
  iterate 10 (all_goals try split at h)
  all_goals try (obtain ⟨s, hs, hr⟩ := Option.map_eq_some'.mp h
                 rw [← hr]
                 exact Or.inl rfl)
  all_goals simp only [Option.some.injEq] at h
  all_goals subst h
  all_goals try (rw [searchYelp_offset]
                 exact Or.inr rfl)
  all_goals exact Or.inl rfl

/-- The word loop keeps the stored offset in {base, offI + 1} when it starts
there: every pagination trigger writes the same absolute value `offI + 1`,
however many trigger words are scanned. -/
theorem followUpLoop_offset (provider : Provider) (offI base : Nat)
    (ws : List String) :
    ∀ (m : Msg) (resp : String) (calls : List SearchReq)
      (r : Msg × String × List SearchReq),
      (m.state.offset = base ∨ m.state.offset = offI + 1) →
      followUpLoop provider offI ws m resp calls = some r →
      (r.1.state.offset = base ∨ r.1.state.offset = offI + 1) := by
  induction ws with
  | nil =>
    intro m resp calls r hm h
    simp only [followUpLoop, Option.some.injEq] at h
    subst h
    exact hm
  | cons w ws ih =>
    intro m resp calls r hm h
    unfold followUpLoop at h
    cases hw : followUpWord provider offI m resp w with
    | none =>
      rw [hw] at h
      exact Option.noConfusion h
    | some r' =>
      obtain ⟨m', resp', calls'⟩ := r'
      rw [hw] at h
      dsimp only at h
      have hm' : m'.state.offset = base ∨ m'.state.offset = offI + 1 := by
        rcases followUpWord_offset provider offI m resp w (m', resp', calls')
            hw with h1 | h1
        · dsimp only at h1
          rw [h1]
          exact hm
        · exact Or.inr h1
      by_cases hr : 0 < resp'.length
      · rw [if_pos hr] at h
        simp only [Option.some.injEq] at h
        subst h
        exact hm'
      · rw [if_neg hr] at h
        exact ih m' resp' (calls ++ calls') r hm' h

/-- Across one whole `FollowUp` call the stored offset either stays or
advances by exactly 1, never more. -/
theorem FollowUp_offset (provider : Provider) (m : Msg) (resp : String)
    (r : Msg × String × List SearchReq)
    (h : FollowUp provider m resp = some r) :
    r.1.state.offset = m.state.offset ∨
      r.1.state.offset = m.state.offset + 1 := by
  unfold FollowUp at h
  by_cases h1 : m.state.location = ""
  · rw [if_pos h1] at h
    simp only [Option.some.injEq] at h
    subst h
    rw [searchYelp_offset]
    exact Or.inl rfl
  · rw [if_neg h1] at h
    by_cases h2 : noBusinesses m.state = true
    · rw [if_pos h2] at h
      simp only [Option.some.injEq] at h
      subst h
      exact Or.inl rfl
    · rw [if_neg h2] at h
      exact followUpLoop_offset provider m.state.offset m.state.offset
        (fields resp) m resp [] r (Or.inl rfl) h

/-- C1, counterexample.  The claim says every accessor bounds-checks so that
an out-of-range stored offset never indexes out of range.  In the state
`mEmpty` the stored list is empty, so offset 0 is not a valid index, yet each
accessor goes straight to the indexing and fails (in Go: an index-out-of-range
panic, modelled as `none`) — no accessor contains a bounds check that would
avoid it. -/
theorem C1_counterexample :
    mEmpty.state.businesses = some ([] : List Business) ∧
    getRating mEmpty 0 = none ∧ getPhone mEmpty 0 = none ∧
    getURL mEmpty 0 = none ∧ getAddress mEmpty 0 = none := by
  decide

/-- C1, amended.  None of the four accessors performs a defensive bounds
check: whenever the offset is not a valid index into the stored businesses
list (or the list is absent), each accessor's list access is out of range
and the call panics (modelled: returns `none`).  Callers must guarantee the
bound themselves. -/
theorem C1_amended (m : Msg) (k : Nat)
    (h : ∀ bs, m.state.businesses = some bs → bs.length ≤ k) :
    getRating m k = none ∧ getPhone m k = none ∧
    getURL m k = none ∧ getAddress m k = none := by
  cases hb : m.state.businesses with
  | none =>
    exact ⟨by simp [getRating, hb], by simp [getPhone, hb],
           by simp [getURL, hb], by simp [getAddress, hb]⟩
  | some bs =>
    have hn : bs[k]? = none := List.getElem?_eq_none (h bs hb)
    exact ⟨by simp [getRating, hb, hn], by simp [getPhone, hb, hn],
           by simp [getURL, hb, hn], by simp [getAddress, hb, hn]⟩

/-- C1, witness for the amended theorem at offset 1 on a one-element list. -/
theorem C1_amended_witness :
    getRating mOneOff1 1 = none ∧ getPhone mOneOff1 1 = none ∧
    getURL mOneOff1 1 = none ∧ getAddress mOneOff1 1 = none :=
  C1_amended mOneOff1 1 (fun bs hb => by
    have h2 : [bizA] = bs := Option.some_inj.mp hb
    subst h2
    decide)

/-- C4, counterexample.  The claim asserts the exhausted message for every
stored list of length `n` and offset `≥ n`.  In `mEmpty` the stored list has
length 0 and the offset 0 satisfies `0 ≥ 0`, but a search that succeeds with
zero results answers the no-results message, not "That's all I could
find." — the code's bounds check is against the freshly returned list, not
the previously stored one. -/
theorem C4_counterexample :
    mEmpty.state.businesses = some ([] : List Business) ∧
    mEmpty.state.offset = 0 ∧
    (searchYelp pEmpty mEmpty "prior").2.1 =
      "I couldn't find any places like that nearby." ∧
    (searchYelp pEmpty mEmpty "prior").2.1 ≠ "That's all I could find." := by
  decide

/-- C4, amended.  `searchYelp` checks the stored offset against the freshly
returned (and just stored) result list: whenever the search succeeds with a
non-empty list `bs` and `offset ≥ bs.length`, it responds with the fixed
"That's all I could find." message and returns before any indexing into the
list; a success with an empty list instead produces the no-results
message. -/
theorem C4_amended (provider : Provider) (m : Msg) (resp : String)
    (bs : List Business) (h1 : provider (yelpReq m.state) = .success bs)
    (h2 : bs ≠ []) (h3 : bs.length ≤ m.state.offset) :
    searchYelp provider m resp =
      ({ m with state := { m.state with businesses := some bs } },
       "That's all I could find.", [yelpReq m.state]) :=
  searchYelp_success_short provider m resp bs h1 h2 h3

/-- C4, witness: offset 1 with a one-element fresh result. -/
theorem C4_amended_witness :
    searchYelp pOne mOneOff1 "x" =
      ({ mOneOff1 with
         state := { mOneOff1.state with businesses := some [bizA] } },
       "That's all I could find.", [yelpReq mOneOff1.state]) :=
  C4_amended pOne mOneOff1 "x" [bizA] rfl (by decide) (by decide)

/-- C5.  On any provider failure (transport error, non-200 status or decode
failure, all merged into one error by `client.get`), `searchYelp` returns
normally (it is a total function into its result type, matching the
unconditional `return nil`), leaves the whole message — businesses, offset,
query, location, sentence — unchanged, and leaves the response text exactly
as it was. -/
theorem C5_failure_noop (provider : Provider) (m : Msg) (resp : String)
    (h : provider (yelpReq m.state) = .failure) :
    searchYelp provider m resp = (m, resp, [yelpReq m.state]) :=
  searchYelp_failure provider m resp h

/-- C5, witness at a concrete state and failing provider. -/
theorem C5_failure_noop_witness :
    searchYelp pFail mOne "prior" = (mOne, "prior", [yelpReq mOne.state]) :=
  C5_failure_noop pFail mOne "prior" rfl

/-- C7.  A successful search with zero results stores the empty business
list and answers exactly "I couldn't find any places like that nearby.";
a subsequent `FollowUp` on a state with a known location and a present but
empty businesses list answers exactly "I couldn't find anything like that"
and issues no search request. -/
theorem C7_zero_results :
    (∀ (provider : Provider) (m : Msg) (resp : String),
      provider (yelpReq m.state) = .success [] →
      searchYelp provider m resp =
        ({ m with state := { m.state with businesses := some [] } },
         "I couldn't find any places like that nearby.",
         [yelpReq m.state])) ∧
    (∀ (provider : Provider) (m : Msg) (resp : String),
      m.state.location ≠ "" → m.state.businesses = some [] →
      FollowUp provider m resp =
        some (m, "I couldn't find anything like that", [])) := by
  constructor
  · exact fun provider m resp h => searchYelp_success_none provider m resp h
  · intro provider m resp h1 h2
    have hb : noBusinesses m.state = true := by simp [noBusinesses, h2]
    unfold FollowUp
    rw [if_neg h1, if_pos hb]

/-- C7, witness: the empty-result search and the short-circuiting
follow-up, each at concrete inputs. -/
theorem C7_zero_results_witness :
    searchYelp pEmpty mOne "x" =
      ({ mOne with state := { mOne.state with businesses := some [] } },
       "I couldn't find any places like that nearby.",
       [yelpReq mOne.state]) ∧
    FollowUp pFail mEmpty "prior" =
      some (mEmpty, "I couldn't find anything like that", []) :=
  ⟨C7_zero_results.1 pEmpty mOne "x" rfl,
   C7_zero_results.2 pFail mEmpty "prior" (by decide) rfl⟩

/-- C8.  When a search succeeds with a business at the stored offset, the
response is "Ok. How does this place look? {name} at {first address line}"
at offset 0 and "What about {name} instead?" at a positive offset, the
address line defaulting to the empty string when the business has no
display-address lines. -/
theorem C8_success_response (provider : Provider) (m : Msg) (resp : String)
    (bs : List Business) (b : Business)
    (h1 : provider (yelpReq m.state) = .success bs)
    (h2 : bs[m.state.offset]? = some b) :
    searchYelp provider m resp =
      ({ m with state := { m.state with businesses := some bs } },
       (if m.state.offset = 0 then
          "Ok. How does this place look? " ++ b.name ++ " at " ++
            (match b.location.displayAddress with
             | [] => ""
             | a :: _ => a)
        else "What about " ++ b.name ++ " instead?"),
       [yelpReq m.state]) :=
  searchYelp_success_hit provider m resp bs b h1 h2

/-- C8, witness: both the offset-0 and the positive-offset renderings. -/
theorem C8_success_response_witness :
    searchYelp pOne mOne "x" =
      ({ mOne with state := { mOne.state with businesses := some [bizA] } },
       "Ok. How does this place look? Torchys at 101 Main St",
       [yelpReq mOne.state]) ∧
    searchYelp pTwo mOneOff1 "x" =
      ({ mOneOff1 with
         state := { mOneOff1.state with businesses := some [bizA, bizA] } },
       "What about Torchys instead?", [yelpReq mOneOff1.state]) :=
  ⟨(C8_success_response pOne mOne "x" [bizA] bizA rfl rfl).trans (by decide),
   (C8_success_response pTwo mOneOff1 "x" [bizA, bizA] bizA rfl rfl).trans
     (by decide)⟩

/-- C10.  `getAddress` unconditionally reads the first display-address line
of the business at the offset: with no lines its indexing is out of range
(the Go call panics, modelled `none`); with at least two lines it renders
"{line1} in {line2}".  `searchYelp` itself tolerates an address-less
business at offset 0 by defaulting the address to the empty string. -/
theorem C10_first_address_line :
    (∀ (m : Msg) (bs : List Business) (b : Business) (k : Nat),
      m.state.businesses = some bs → bs[k]? = some b →
      b.location.displayAddress = [] → getAddress m k = none) ∧
    (∀ (m : Msg) (bs : List Business) (b : Business) (k : Nat)
      (l1 l2 : String) (rest : List String),
      m.state.businesses = some bs → bs[k]? = some b →
      b.location.displayAddress = l1 :: l2 :: rest →
      getAddress m k = some (l1 ++ " in " ++ l2)) ∧
    (∀ (provider : Provider) (m : Msg) (resp : String)
      (bs : List Business) (b : Business),
      provider (yelpReq m.state) = .success bs →
      bs[m.state.offset]? = some b → b.location.displayAddress = [] →
      m.state.offset = 0 →
      (searchYelp provider m resp).2.1 =
        "Ok. How does this place look? " ++ b.name ++ " at ") := by
  refine ⟨?_, ?_, ?_⟩
  · intro m bs b k hb hk ha
    simp [getAddress, hb, hk, ha]
  · intro m bs b k l1 l2 rest hb hk ha
    simp [getAddress, hb, hk, ha]
  · intro provider m resp bs b h1 h2 ha h0
    rw [searchYelp_success_hit provider m resp bs b h1 h2]
    simp [h0, ha, String.append_empty]

/-- C10, witness: the panic on `bizBare`, the two-line rendering on `bizA`,
and the tolerant `searchYelp` rendering for an address-less business. -/
theorem C10_first_address_line_witness :
    getAddress mBare 0 = none ∧
    getAddress mOne 0 = some ("101 Main St" ++ " in " ++ "Austin") ∧
    (searchYelp pBare mBare "x").2.1 =
      "Ok. How does this place look? " ++ bizBare.name ++ " at " :=
  ⟨C10_first_address_line.1 mBare [bizBare] bizBare 0 rfl rfl rfl,
   C10_first_address_line.2.1 mOne [bizA] bizA 0 "101 Main St" "Austin" []
     rfl rfl rfl,
   C10_first_address_line.2.2 pBare mBare "x" [bizBare] bizBare rfl rfl rfl
     rfl⟩

/-- C6, counterexample.  When the first resolution attempt returns a
clarifying question, `Run` writes the question into the message's `Sentence`
field (line 110) — the field that otherwise carries the *incoming* user
utterance — and leaves the outgoing response pointer untouched: here the
response stays `""`, not the question text, although the partial-location
store, the nil error and the absence of a search all behave as claimed.
(The retry branch, line 125, is the one that writes the question to the
response.) -/
theorem C6_counterexample :
    Run (.ok none "Where are you?") (.ok (some ⟨"Austin"⟩) "") pFail
        ["tacos"] mOne "" =
      some ({ state := { query := "tacos ", location := "", offset := 0,
                         businesses := some [] },
              sentence := "Where are you?" }, "", [], false) ∧
    ("" : String) ≠ "Where are you?" := by
  decide

/-- C6, amended.  Whenever the first resolution attempt returns a non-empty
clarifying question, `Run` stores the partial location name in state if one
was returned, writes the clarifying question into the message's sentence
field (leaving the outgoing response unchanged — only the second resolution
attempt writes a question to the response), returns without error, and
never invokes Search that turn. -/
theorem C6_amended (loc : Option Loc) (q : String) (g2 : LocOutcome)
    (provider : Provider) (objs : List String) (m : Msg) (resp : String)
    (h : 0 < q.length) :
    Run (.ok loc q) g2 provider objs m resp =
      some ({ state := storeLocName (freshState objs) loc, sentence := q },
            resp, [], false) := by
  simp only [Run]
  rw [if_pos h]

/-- C6, witness: a concrete clarifying question with a partial location. -/
theorem C6_amended_witness :
    Run (.ok (some ⟨"Aus"⟩) "Did you mean Austin?") (.ok none "") pFail
        ["tacos"] mOne "prev" =
      some ({ state := storeLocName (freshState ["tacos"]) (some ⟨"Aus"⟩),
              sentence := "Did you mean Austin?" }, "prev", [], false) :=
  C6_amended (some ⟨"Aus"⟩) "Did you mean Austin?" (.ok none "") pFail
    ["tacos"] mOne "prev" (by decide)

/-- C9.  Whatever path `Run` takes and whatever state the conversation was
in before the turn, every returned outcome carries as stored query exactly
the turn's object tokens concatenated in original order, each followed by a
single space (`joinSpaced`, the spec's reconstruction): the query is rebuilt
fresh from this turn's tokens, never accumulated. -/
theorem C9_query_rebuilt (g1 g2 : LocOutcome) (provider : Provider)
    (objs : List String) (m : Msg) (resp : String)
    (out : Msg × String × List SearchReq × Bool)
    (h : Run g1 g2 provider objs m resp = some out) :
    out.1.state.query = joinSpaced objs := by
  have hq : buildQuery objs = joinSpaced objs := buildQuery_eq_joinSpaced objs
  unfold Run at h
  rcases g1 with _ | ⟨loc, question⟩
  · simp only [Option.some.injEq] at h
    subst h
    exact hq
  · dsimp only at h
    by_cases hg : 0 < question.length
    · rw [if_pos hg] at h
      simp only [Option.some.injEq] at h
      subst h
      dsimp only
      rw [storeLocName_query]
      exact hq
    · rw [if_neg hg] at h
      rcases loc with _ | ⟨l⟩
      · exact Option.noConfusion h
      · dsimp only at h
        by_cases hl : l.name.length = 0
        · rw [if_pos hl] at h
          rcases g2 with _ | ⟨loc2, question2⟩
          · simp only [Option.some.injEq] at h
            subst h
            exact hq
          · dsimp only at h
            by_cases hg2 : 0 < question2.length
            · rw [if_pos hg2] at h
              simp only [Option.some.injEq] at h
              subst h
              dsimp only
              rw [storeLocName_query]
              exact hq
            · rw [if_neg hg2] at h
              rcases loc2 with _ | ⟨l2⟩
              · exact Option.noConfusion h
              · dsimp only at h
                simp only [Option.some.injEq] at h
                subst h
                dsimp only
                rw [searchYelp_query]
                exact hq
        · rw [if_neg hl] at h
          simp only [Option.some.injEq] at h
          subst h
          dsimp only
          rw [searchYelp_query]
          exact hq

/-- C9, witness: a full turn with two object tokens reconstructs
"veggie tacos " exactly. -/
theorem C9_query_rebuilt_witness :
    (({ state := { query := "veggie tacos ", location := "Austin",
                   offset := 0, businesses := some [] },
        sentence := "hi" }, "",
      [{ term := "veggie tacos ", location := "Austin", limit := 1 }],
      false) :
        Msg × String × List SearchReq × Bool).1.state.query =
      joinSpaced ["veggie", "tacos"] :=
  C9_query_rebuilt (.ok (some ⟨"Austin"⟩) "") (.ok none "") pFail
    ["veggie", "tacos"] mOne ""
    ({ state := { query := "veggie tacos ", location := "Austin",
                  offset := 0, businesses := some [] },
       sentence := "hi" }, "",
     [{ term := "veggie tacos ", location := "Austin", limit := 1 }],
     false) (by decide)

/-- C2, counterexample.  Prior response "A phone.": the claim's scan would
skip the unmatched word "a" and fire on "phone", answering exactly the
display phone "(512) 555-0100".  The code instead checks the response
buffer after every word, and that buffer still holds the non-empty prior
response, so `FollowUp` returns right after the unmatched first word with
the prior response unchanged — not the phone. -/
theorem C2_counterexample :
    FollowUp pFail mOne "A phone." = some (mOne, "A phone.", []) ∧
    bizA.displayPhone = "(512) 555-0100" ∧
    ("A phone." : String) ≠ "(512) 555-0100" := by
  decide

/-- C2, amended.  With a known location and a non-empty stored businesses
list, `FollowUp` tokenizes the prior response text (not the new user
utterance), strips trailing punctuation from each word, lower-cases it, and
scans left to right, returning at the first word after which the response
text is non-empty — because the response initially holds the non-empty
prior response, that is the first word unless its action produced an empty
response.  In particular, when the first word normalizes to "phone" and the
display phone is non-empty, the response is exactly the display phone of
the business at the current offset, with no prefix. -/
theorem C2_amended (provider : Provider) (m : Msg) (resp : String)
    (w : String) (ws : List String) (bs : List Business) (b : Business)
    (h1 : m.state.location ≠ "") (h2 : m.state.businesses = some bs)
    (h3 : bs ≠ []) (h4 : fields resp = w :: ws)
    (h5 : lowerStr (trimRightPunct w) = "phone")
    (h6 : bs[m.state.offset]? = some b) (h7 : b.displayPhone ≠ "") :
    FollowUp provider m resp = some (m, b.displayPhone, []) := by
  have hget : getPhone m m.state.offset = some b.displayPhone := by
    simp [getPhone, h2, h6]
  have hnb : ¬ (noBusinesses m.state = true) := by
    simp [noBusinesses, h2, List.length_eq_zero]
    exact h3
  unfold FollowUp
  rw [if_neg h1, if_neg hnb, h4]
  unfold followUpLoop
  rw [followUpWord_phone provider m.state.offset m resp w b.displayPhone h5
    hget]
  dsimp only
  rw [if_pos (str_length_pos _ h7)]
  rfl

/-- C2, witness: prior response "Phone." answers the display phone with no
prefix; the new utterance (`mOne.sentence`) plays no part. -/
theorem C2_amended_witness :
    FollowUp pFail mOne "Phone." = some (mOne, "(512) 555-0100", []) :=
  (C2_amended pFail mOne "Phone." "Phone." [] [bizA] bizA (by decide) rfl
    (by decide) (by decide) (by decide) rfl (by decide)).trans (by decide)

/-- C3, counterexample.  `offI` is read once at the top of `FollowUp`
(line 158) and every trigger word stores the absolute value `offI + 1`.  On
state `mBare` (offset 0; its business has an empty display phone, so the
word "phone" empties the response and lets the scan continue) with prior
response "phone else else" and a failing provider, *two* trigger words are
processed, yet the final offset is 1 — not 0 + 2 as "advances once per
trigger word" predicts — and both issued requests ask for limit 2 rather
than 2 then 3. -/
theorem C3_counterexample :
    FollowUp pFail mBare "phone else else" =
      some ({ mBare with state := { mBare.state with offset := 1 } }, "",
            [{ term := "tacos ", location := "Austin", limit := 2 },
             { term := "tacos ", location := "Austin", limit := 2 }]) ∧
    (1 : Nat) ≠ 0 + 2 := by
  decide

/-- C3, amended.  A search request always asks the provider for exactly
`offset + 1` results.  A pagination trigger word sets the stored offset to
one more than the offset read at the start of the `FollowUp` call and
re-invokes Search; because that base is read once per call, the offset
advances by at most 1 per `FollowUp` call — even when several trigger words
fire, each stores the same value — not once per trigger word. -/
theorem C3_amended :
    (∀ (provider : Provider) (m : Msg) (resp : String),
      (searchYelp provider m resp).2.2 =
        [{ term := m.state.query, location := m.state.location,
           limit := m.state.offset + 1 }]) ∧
    (∀ (provider : Provider) (offI : Nat) (m : Msg) (resp w : String),
      lowerStr (trimRightPunct w) ∈
        ["not", "else", "no", "anything", "something"] →
      followUpWord provider offI m resp w =
        some (searchYelp provider
          { m with state := { m.state with offset := offI + 1 } } resp)) ∧
    (∀ (provider : Provider) (m : Msg) (resp : String)
      (r : Msg × String × List SearchReq),
      FollowUp provider m resp = some r →
      r.1.state.offset = m.state.offset ∨
        r.1.state.offset = m.state.offset + 1) :=
  ⟨fun provider m resp => searchYelp_calls provider m resp,
   followUpWord_trigger, FollowUp_offset⟩

/-- C3, witness: the request limit at offset 0, a trigger word's effect,
and the at-most-one advance across a concrete `FollowUp` call. -/
theorem C3_amended_witness :
    (searchYelp pFail mOne "x").2.2 =
      [{ term := "tacos ", location := "Austin", limit := 1 }] ∧
    followUpWord pFail 0 mOne "x" "else" =
      some (searchYelp pFail
        { mOne with state := { mOne.state with offset := 1 } } "x") ∧
    (((mOne, "hello", []) :
        Msg × String × List SearchReq).1.state.offset = mOne.state.offset ∨
      ((mOne, "hello", []) :
        Msg × String × List SearchReq).1.state.offset =
          mOne.state.offset + 1) :=
  ⟨C3_amended.1 pFail mOne "x",
   C3_amended.2.1 pFail 0 mOne "x" "else" (by decide),
   C3_amended.2.2 pFail mOne "hello" (mOne, "hello", []) (by decide)⟩

end Restaurant
